import Mathlib

/-!
Shallow embedding of the LoRa E32 communication stack
(`src/lib/modules/lora/index.ts` and the broadcast drain of
`src/lib/connection/broadcast.ts`), together with theorems checking the
natural-language specification against the code.

Conventions of the embedding:
* JS `Uint8Array` values are `List Nat` whose elements are byte values;
  the `Uint8Array` store coercion is `% 256`.
* The effectful methods of the `LoRaE32` class become functions from an
  explicit state (`LoRaState`) and an oracle listing the transport's
  `data` notification chunks, to an outcome, a final state and a trace
  of externally visible actions (UART writes, GPIO writes, emitted
  events).  An `await this.receive(n)` that never resolves is the
  `Outcome.pending` outcome.
* The TS field `private isSetup: false` is a type annotation without an
  initializer, so at runtime the field holds `undefined`; it is embedded
  as `Option Bool` with initial value `none`.  The JS loose comparison
  `this.isSetup == false` is `jsEqFalse`.
-/

namespace LoRa

/-- Operating mode of the module (`Mode` in `constant.ts`). -/
inductive Mode where
  | NORMAL
  | WAKE_UP
  | POWER_SAVING
  | SLEEP
deriving DecidableEq

/-- Configuration register fields (`Config` in `constant.ts`); the field
names are the ones the code reads and writes in `setConfig`. -/
structure Config where
  header : Nat
  highAddress : Nat
  lowAddress : Nat
  airRate : Nat
  baudRate : Nat
  parityBit : Nat
  channel : Nat
  FEC : Nat
  driveMode : Nat
  transmissionMode : Nat
  transmissionPower : Nat
  wakeUpTime : Nat
deriving DecidableEq

/-- Version information (`Version` in `constant.ts`), built by
`readVersion` from the four reply bytes. -/
structure Version where
  header : Nat
  model : Nat
  version : Nat
  features : Nat
deriving DecidableEq

/-- The errors the embedded operations can raise.  `illegalOperation`
is `IllegalOperationError` with its message, `notReady` the plain
`Error('Module is not setup yet!')` of `assertReady`, `typeError` the
`TypeError` of `readVersion`; `badHeader`, `wrongLength` and
`malformed` are the codec failures. -/
inductive LoRaError where
  | notReady
  | illegalOperation (msg : String)
  | badHeader
  | wrongLength
  | typeError
  | malformed
deriving DecidableEq

/-- Externally visible actions of an operation, in program order. -/
inductive Action where
  | uartWrite (bytes : List Nat)
  | gpioWrite (pin : Nat) (level : Nat)
  | recordMode (m : Mode)
  | emitMode (m : Mode)
  | linkSend (bytes : List Nat)
  | linkWrite (bytes : List Nat)
  | waitMs (ms : Nat)
deriving DecidableEq

/-- Outcome of an asynchronous operation: raised an error, suspended
forever on an unresolved `receive`, or returned a value. -/
inductive Outcome (α : Type) where
  | err (e : LoRaError)
  | pending
  | ok (a : α)
deriving DecidableEq

/-- View of an `Except` as an operation outcome. -/
def Outcome.ofExcept {α : Type} : Except LoRaError α → Outcome α
  | .ok a => .ok a
  | .error e => .err e

/-- True exactly on a successful outcome. -/
def Outcome.isOk {α : Type} : Outcome α → Bool
  | .ok _ => true
  | _ => false

/-- Mutable state of a `LoRaE32` instance: the recorded operating mode,
the `isSetup` flag (see the module comment for why it is `Option Bool`),
and the cached configuration and version. -/
structure LoRaState where
  mode : Mode
  isSetup : Option Bool
  config : Option Config
  version : Option Version
deriving DecidableEq

/-- Result of one effectful method: outcome, state after, action trace. -/
structure OpRes (α : Type) where
  out : Outcome α
  st : LoRaState
  trace : List Action
deriving DecidableEq

/-- State of a freshly constructed `LoRaE32`: mode starts at
`Mode.SLEEP`, `isSetup` is `undefined`, no config or version cached. -/
def initState : LoRaState :=
  { mode := Mode.SLEEP, isSetup := none, config := none, version := none }

/-- ECMAScript loose equality `x == false` for `x : Option Bool`
(`none` is `undefined`): `undefined == false` is `false`, and among
booleans only `false == false` holds. -/
def jsEqFalse : Option Bool → Bool
  | some false => true
  | _ => false

/-- `assertReady`: throws `Error('Module is not setup yet!')` when
`this.isSetup == false` (JS loose equality). -/
def assertReady (s : LoRaState) : Except LoRaError Unit :=
  if jsEqFalse s.isSetup then .error .notReady else .ok ()

/-- `assertSleepMode`: throws `IllegalOperationError` when the recorded
mode is not `SLEEP`. -/
def assertSleepMode (s : LoRaState) : Except LoRaError Unit :=
  if s.mode ≠ Mode.SLEEP then
    .error (.illegalOperation "Reading parameters while not in sleep mode")
  else .ok ()

/-- The GPIO levels `setMode` writes on the lines `m0` and `m1`
(`HIGH = 1`, `LOW = 0`). -/
def modeLevels : Mode → Nat × Nat
  | Mode.NORMAL => (0, 0)
  | Mode.WAKE_UP => (1, 0)
  | Mode.POWER_SAVING => (0, 1)
  | Mode.SLEEP => (1, 1)

/-- `setMode(mode)`: writes the two GPIO levels for `mode` on `m0` and
`m1`, then records the mode (`this.mode = mode`, the `recordMode`
action marks its position in program order) and emits the `mode`
event.  There is no failure path. -/
def setMode (s : LoRaState) (m : Mode) : OpRes Unit :=
  { out := .ok ()
    st := { s with mode := m }
    trace := [.gpioWrite 0 (modeLevels m).1, .gpioWrite 1 (modeLevels m).2,
              .recordMode m, .emitMode m] }

/-- `send(data)`: throws `IllegalOperationError` while the recorded mode
is `SLEEP`, otherwise forwards the payload unchanged to
`this.link.send`. -/
def send (s : LoRaState) (data : List Nat) : OpRes Unit :=
  if s.mode = Mode.SLEEP then
    { out := .err (.illegalOperation "Attempt to send data while in sleep mode")
      st := s, trace := [] }
  else
    { out := .ok (), st := s, trace := [.linkSend data] }

/-- `write(data)`: raw passthrough to `this.link.write`. -/
def write (s : LoRaState) (data : List Nat) : OpRes Unit :=
  { out := .ok (), st := s, trace := [.linkWrite data] }

/-- `Uint8Array.prototype.set(data, off)` on a buffer of fixed length:
copies `data` into `buf` starting at `off`; per ECMAScript it throws a
`RangeError` (here `none`) when `off + data.length` exceeds the buffer
length. -/
def listSet (buf data : List Nat) (off : Nat) : Option (List Nat) :=
  if off + data.length ≤ buf.length then
    some (buf.take off ++ data ++ buf.drop (off + data.length))
  else none

/-- State of one pending `receive(n)` call: the zero-initialized
accumulation buffer, the write cursor, and whether the promise has
resolved (at which point the `data` listener has been detached). -/
structure RecvState where
  buf : List Nat
  cursor : Nat
  done : Bool
deriving DecidableEq

/-- Effect of one transport `data` notification on a `receive(n)` call.
After resolution the listener is detached, so the chunk is ignored.
Otherwise the handler runs `buf.set(data, cursor)` — when that throws a
`RangeError` the handler aborts with `buf` and `cursor` unchanged and
the listener still attached — then advances the cursor and, once
`cursor >= n`, detaches the listener and resolves. -/
def receiveStep (n : Nat) (s : RecvState) (data : List Nat) : RecvState :=
  if s.done then s
  else
    match listSet s.buf data s.cursor with
    | none => s
    | some buf2 =>
      let cursor2 := s.cursor + data.length
      if n ≤ cursor2 then { buf := buf2, cursor := cursor2, done := true }
      else { buf := buf2, cursor := cursor2, done := false }

/-- Initial state of `receive(n)`: `new Uint8Array(n)` is zero filled. -/
def receiveInit (n : Nat) : RecvState :=
  { buf := List.replicate n 0, cursor := 0, done := false }

/-- State of `receive(n)` after the transport delivered `chunks`. -/
def receiveRun (n : Nat) (chunks : List (List Nat)) : RecvState :=
  chunks.foldl (receiveStep n) (receiveInit n)

/-- Resolved value of `receive(n)` after `chunks`, when it resolved. -/
def receiveBuf (n : Nat) (chunks : List (List Nat)) : Option (List Nat) :=
  let s := receiveRun n chunks
  if s.done then some s.buf else none

/-- Total number of bytes in a list of transport chunks. -/
def totalLen (chunks : List (List Nat)) : Nat :=
  (chunks.map List.length).sum

/-- `prefixOk n c chunks` holds when, starting from cursor `c`, no chunk
overflows the `n`-byte buffer: every cumulative byte count stays `≤ n`. -/
def prefixOk (n : Nat) : Nat → List (List Nat) → Bool
  | _, [] => true
  | c, d :: ds => decide (c + d.length ≤ n) && prefixOk n (c + d.length) ds

/-- Modelled from the spec: the fixed header sentinel a read-back
configuration must carry.  The constant lives in `constant.ts`, which is
absent from the sources; `0xc0` is used as the concrete sentinel. -/
def HEADER_SENTINEL : Nat := 0xc0

/-- Modelled from the spec: unpacking of the 6-byte configuration reply
(`ConfigRegister.parse`'s field extraction).  `constant.ts` is absent;
the spec fixes the byte layout (`header`, `highAddress`, `lowAddress`,
bit-packed speed byte, `channel`, bit-packed option byte) but leaves the
bit positions open, so the E32 register masks are used. -/
def Config.unpack (b : List Nat) : Config :=
  { header := b.getD 0 0
    highAddress := b.getD 1 0
    lowAddress := b.getD 2 0
    airRate := b.getD 3 0 &&& 0x07
    baudRate := b.getD 3 0 &&& 0x38
    parityBit := b.getD 3 0 &&& 0xc0
    channel := b.getD 4 0
    transmissionPower := b.getD 5 0 &&& 0x03
    FEC := b.getD 5 0 &&& 0x04
    wakeUpTime := b.getD 5 0 &&& 0x38
    driveMode := b.getD 5 0 &&& 0x40
    transmissionMode := b.getD 5 0 &&& 0x80 }

/-- Modelled from the spec: `Config.from(bytes)`
(`ConfigRegister.parse`), absent `constant.ts`; fails with
`WrongLength` unless the input is exactly 6 bytes. -/
def Config.fromBytes (b : List Nat) : Except LoRaError Config :=
  if b.length = 6 then .ok (Config.unpack b) else .error .wrongLength

/-- Modelled from the spec: `config.assert()`
(`ConfigRegister.validate`), absent `constant.ts`; fails with
`BadHeader` unless the header equals the sentinel. -/
def Config.assert (c : Config) : Except LoRaError Config :=
  if c.header = HEADER_SENTINEL then .ok c else .error .badHeader

/-- Modelled from the spec: the value of `new Config()` used by
`getConfig`'s defensive copy, absent `constant.ts`; all fields default
to zero. -/
def CONFIG_DEFAULT : Config :=
  { header := 0, highAddress := 0, lowAddress := 0, airRate := 0
    baudRate := 0, parityBit := 0, channel := 0, FEC := 0, driveMode := 0
    transmissionMode := 0, transmissionPower := 0, wakeUpTime := 0 }

/-- The fixed read-config command `LoRaE32.PACKET_GET_CONFIG`. -/
def PACKET_GET_CONFIG : List Nat := [0xc1, 0xc1, 0xc1]

/-- `readParameters()`: asserts sleep mode, writes the fixed read-config
command, awaits 6 reply bytes via `receive(6)`, then returns
`Config.from(result).assert()`.  It does not write to `this.config`. -/
def readParameters (s : LoRaState) (chunks : List (List Nat)) : OpRes Config :=
  if s.mode ≠ Mode.SLEEP then
    { out := .err (.illegalOperation "Reading parameters while not in sleep mode")
      st := s, trace := [] }
  else
    match receiveBuf 6 chunks with
    | none => { out := .pending, st := s, trace := [.uartWrite PACKET_GET_CONFIG] }
    | some buf =>
      { out := .ofExcept ((Config.fromBytes buf).bind Config.assert)
        st := s, trace := [.uartWrite PACKET_GET_CONFIG] }

/-- The 6 bytes `setConfig` builds inline from `config`'s fields (HEAD,
ADDH, ADDL, SPED, CHAN, OPTION); `|` is JS bitwise or, and the
`Uint8Array` store keeps the low byte. -/
def serializeBytes (c : Config) : List Nat :=
  [c.header % 256,
   c.highAddress % 256,
   c.lowAddress % 256,
   (c.airRate ||| c.baudRate ||| c.parityBit) % 256,
   c.channel % 256,
   (c.FEC ||| c.driveMode ||| c.transmissionMode ||| c.transmissionPower |||
     c.wakeUpTime) % 256]

/-- `setConfig(config)`: asserts sleep mode, writes the 6 serialized
bytes, awaits the 6-byte echo, and stores `Config.from(echo)` — not the
argument — into `this.config` (no `assert` on the echo). -/
def setConfig (s : LoRaState) (cfg : Config) (chunks : List (List Nat)) :
    OpRes Unit :=
  if s.mode ≠ Mode.SLEEP then
    { out := .err (.illegalOperation "Reading parameters while not in sleep mode")
      st := s, trace := [] }
  else
    match receiveBuf 6 chunks with
    | none =>
      { out := .pending, st := s, trace := [.uartWrite (serializeBytes cfg)] }
    | some buf =>
      match Config.fromBytes buf with
      | .error e =>
        { out := .err e, st := s, trace := [.uartWrite (serializeBytes cfg)] }
      | .ok c =>
        { out := .ok (), st := { s with config := some c }
          trace := [.uartWrite (serializeBytes cfg)] }

/-- `resetConfig()`: asserts sleep mode, writes the fixed reset command
`[0xc4,0xc4,0xc4]`, waits 50 ms, then runs `readParameters()` and
stores its result into `this.config`. -/
def resetConfig (s : LoRaState) (chunks : List (List Nat)) : OpRes Unit :=
  if s.mode ≠ Mode.SLEEP then
    { out := .err (.illegalOperation "Reading parameters while not in sleep mode")
      st := s, trace := [] }
  else
    let pre : List Action := [.uartWrite [0xc4, 0xc4, 0xc4], .waitMs 50]
    let r := readParameters s chunks
    match r.out with
    | .ok cfg =>
      { out := .ok (), st := { r.st with config := some cfg }
        trace := pre ++ r.trace }
    | .err e => { out := .err e, st := r.st, trace := pre ++ r.trace }
    | .pending => { out := .pending, st := r.st, trace := pre ++ r.trace }

/-- The check and destructuring `readVersion` applies to the buffer
returned by `receive(4)`: a `TypeError` unless the length is exactly 4,
otherwise the four bytes become `header`, `model`, `version`,
`features` in order. -/
def versionOfBuf (buf : List Nat) : Except LoRaError Version :=
  if buf.length = 4 then
    .ok { header := buf.getD 0 0, model := buf.getD 1 0
          version := buf.getD 2 0, features := buf.getD 3 0 }
  else .error .typeError

/-- `readVersion()`: asserts sleep mode, writes the fixed read-version
command `[0xc3,0xc3,0xc3]`, awaits 4 reply bytes, and builds the
`Version` from them. -/
def readVersion (s : LoRaState) (chunks : List (List Nat)) : OpRes Version :=
  if s.mode ≠ Mode.SLEEP then
    { out := .err (.illegalOperation "Reading parameters while not in sleep mode")
      st := s, trace := [] }
  else
    match receiveBuf 4 chunks with
    | none =>
      { out := .pending, st := s, trace := [.uartWrite [0xc3, 0xc3, 0xc3]] }
    | some buf =>
      { out := .ofExcept (versionOfBuf buf), st := s
        trace := [.uartWrite [0xc3, 0xc3, 0xc3]] }

/-- `setup()`: `setMode(SLEEP)`, then `this.config = readParameters()`,
then `this.version = readVersion()`.  Note it never touches
`this.isSetup`. -/
def setup (s : LoRaState) (chunks1 chunks2 : List (List Nat)) : OpRes Unit :=
  let r1 := setMode s Mode.SLEEP
  let r2 := readParameters r1.st chunks1
  match r2.out with
  | .err e => { out := .err e, st := r2.st, trace := r1.trace ++ r2.trace }
  | .pending => { out := .pending, st := r2.st, trace := r1.trace ++ r2.trace }
  | .ok cfg =>
    let s2 : LoRaState := { r2.st with config := some cfg }
    let r3 := readVersion s2 chunks2
    match r3.out with
    | .err e =>
      { out := .err e, st := r3.st, trace := r1.trace ++ r2.trace ++ r3.trace }
    | .pending =>
      { out := .pending, st := r3.st
        trace := r1.trace ++ r2.trace ++ r3.trace }
    | .ok v =>
      { out := .ok (), st := { r3.st with version := some v }
        trace := r1.trace ++ r2.trace ++ r3.trace }

/-- `getConfig()`: runs `assertReady`, then returns
`Object.assign(new Config(), this.config)` — a fresh default `Config`
when `this.config` is still `null`, otherwise a copy of it. -/
def getConfig (s : LoRaState) : Except LoRaError Config :=
  match assertReady s with
  | .error e => .error e
  | .ok _ => .ok (s.config.getD CONFIG_DEFAULT)

/-- `getVersion()`: runs `assertReady`, then returns `this.version`
(possibly still `null`). -/
def getVersion (s : LoRaState) : Except LoRaError (Option Version) :=
  match assertReady s with
  | .error e => .error e
  | .ok _ => .ok s.version

/-- `getMode()`: runs `assertReady`, then returns the recorded mode. -/
def getMode (s : LoRaState) : Except LoRaError Mode :=
  match assertReady s with
  | .error e => .error e
  | .ok _ => .ok s.mode

/-- An event the broadcast `Drain` emits for one inbound frame. -/
inductive DrainEvent (ε α : Type) where
  | message (envelope : α)
  | error (err : ε)
deriving DecidableEq

/-- The `Drain`'s `message` handler for one inbound frame: `try` parse
the frame (`BroadcastPacket.from`), emitting `message` on success and
`error` on a caught throw. -/
def drainStep {ε α : Type} (parse : List Nat → Except ε α) (frame : List Nat) :
    DrainEvent ε α :=
  match parse frame with
  | .ok envelope => .message envelope
  | .error err => .error err

/-- Events the `Drain` emits for a sequence of inbound frames: the
subscription installed in the constructor stays attached, so every
frame is handled by `drainStep` in order. -/
def drainEvents {ε α : Type} (parse : List Nat → Except ε α) :
    List (List Nat) → List (DrainEvent ε α)
  | [] => []
  | f :: fs => drainStep parse f :: drainEvents parse fs

/-- Modelled from the spec: `BroadcastPacket.from`
(`BroadcastEnvelope.parse`); `packet.ts` is absent from the sources and
the spec leaves the envelope wire convention open, so the model carries
a 2-byte address followed by the payload and fails with `Malformed` on
input too short to hold the address. -/
def BroadcastPacket.fromBytes (b : List Nat) :
    Except LoRaError (Nat × List Nat) :=
  if b.length < 2 then .error .malformed
  else .ok (b.getD 0 0 * 256 + b.getD 1 0, b.drop 2)

lemma totalLen_cons (d : List Nat) (ds : List (List Nat)) :
    totalLen (d :: ds) = d.length + totalLen ds := by
  simp [totalLen]

lemma receiveStep_done {n : Nat} {s : RecvState} (h : s.done = true)
    (d : List Nat) : receiveStep n s d = s := by
  simp [receiveStep, h]

lemma foldl_receiveStep_done {n : Nat} (chunks : List (List Nat))
    (s : RecvState) (h : s.done = true) :
    chunks.foldl (receiveStep n) s = s := by
  induction chunks with
  | nil => rfl
  | cons d ds ih => rw [List.foldl_cons, receiveStep_done h, ih]

lemma prefixOk_total {n : Nat} :
    ∀ {chunks : List (List Nat)} {c : Nat}, prefixOk n c chunks = true →
      c + totalLen chunks ≤ n ∨ totalLen chunks = 0 := by
  intro chunks
  induction chunks with
  | nil => intro c _; right; rfl
  | cons d ds ih =>
    intro c h
    simp only [prefixOk, Bool.and_eq_true, decide_eq_true_eq] at h
    left
    rcases ih h.2 with h2 | h2
    · rw [totalLen_cons]; omega
    · rw [totalLen_cons, h2]; omega

lemma prefixOk_of_le {n : Nat} :
    ∀ {chunks : List (List Nat)} {c : Nat}, c + totalLen chunks ≤ n →
      prefixOk n c chunks = true := by
  intro chunks
  induction chunks with
  | nil => intro c _; rfl
  | cons d ds ih =>
    intro c h
    rw [totalLen_cons] at h
    simp only [prefixOk, Bool.and_eq_true, decide_eq_true_eq]
    exact ⟨by omega, ih (by omega)⟩

lemma receiveRun_go (n : Nat) :
    ∀ (chunks : List (List Nat)) (c : Nat) (pre : List Nat),
      pre.length = c → c < n → prefixOk n c chunks = true →
      chunks.foldl (receiveStep n)
          { buf := pre ++ List.replicate (n - c) 0, cursor := c,
            done := false } =
        { buf := pre ++ chunks.flatten ++
            List.replicate (n - (c + totalLen chunks)) 0,
          cursor := c + totalLen chunks,
          done := decide (c + totalLen chunks = n) } := by
  intro chunks
  induction chunks with
  | nil =>
    intro c pre hlen hlt _
    simp [totalLen, decide_eq_false (Nat.ne_of_lt hlt)]
  | cons d ds ih =>
    intro c pre hlen hlt hok
    simp only [prefixOk, Bool.and_eq_true, decide_eq_true_eq] at hok
    obtain ⟨hd, hds⟩ := hok
    have hblen : (pre ++ List.replicate (n - c) (0 : Nat)).length = n := by
      simp [hlen]; omega
    have htake : (pre ++ List.replicate (n - c) (0 : Nat)).take c = pre :=
      List.take_left' hlen
    have hdrop : (pre ++ List.replicate (n - c) (0 : Nat)).drop
        (c + d.length) = List.replicate (n - (c + d.length)) 0 := by
      rw [← hlen, List.drop_append, List.drop_replicate]
      congr 1
      omega
    have hstep : receiveStep n
        { buf := pre ++ List.replicate (n - c) 0, cursor := c, done := false }
          d =
        { buf := pre ++ (d ++ List.replicate (n - (c + d.length)) 0),
          cursor := c + d.length, done := decide (n ≤ c + d.length) } := by
      simp only [receiveStep]
      rw [if_neg (by simp)]
      simp only [listSet, hblen, if_pos hd, htake, hdrop]
      by_cases hle : n ≤ c + d.length
      · rw [if_pos hle, decide_eq_true hle, List.append_assoc]
      · rw [if_neg hle, decide_eq_false hle, List.append_assoc]
    rw [List.foldl_cons, hstep]
    by_cases hcase : c + d.length = n
    · have htds : totalLen ds = 0 := by
        rcases prefixOk_total hds with h2 | h2
        · omega
        · exact h2
      have hflat : ds.flatten = [] := by
        apply List.eq_nil_of_length_eq_zero
        rw [List.length_flatten]
        simpa [totalLen] using htds
      rw [foldl_receiveStep_done ds _ (by simp [hcase])]
      simp [totalLen_cons, htds, hflat, hcase]
    · have hlt2 : c + d.length < n := Nat.lt_of_le_of_ne hd hcase
      have hdec : decide (n ≤ c + d.length) = false := by
        simp; omega
      rw [hdec,
        show pre ++ (d ++ List.replicate (n - (c + d.length)) (0 : Nat)) =
            pre ++ d ++ List.replicate (n - (c + d.length)) 0 from
          (List.append_assoc pre d _).symm,
        ih (c + d.length) (pre ++ d) (by simp [hlen]) hlt2 hds]
      simp [totalLen_cons, List.append_assoc, Nat.add_assoc]

lemma receiveRun_eq {n : Nat} {chunks : List (List Nat)} (hn : 0 < n)
    (hfit : prefixOk n 0 chunks = true) :
    receiveRun n chunks =
      { buf := chunks.flatten ++ List.replicate (n - totalLen chunks) 0,
        cursor := totalLen chunks, done := decide (totalLen chunks = n) } := by
  have h := receiveRun_go n chunks 0 [] rfl hn hfit
  simpa [receiveRun, receiveInit] using h

lemma receiveBuf_eq_flatten {n : Nat} {chunks : List (List Nat)} (hn : 0 < n)
    (hfit : prefixOk n 0 chunks = true) (htot : totalLen chunks = n) :
    receiveBuf n chunks = some chunks.flatten := by
  simp [receiveBuf, receiveRun_eq hn hfit, htot]

lemma flatten_length_of_total {chunks : List (List Nat)} :
    chunks.flatten.length = totalLen chunks := by
  rw [List.length_flatten]; rfl

lemma readParameters_st_mode (s : LoRaState) (chunks : List (List Nat)) :
    (readParameters s chunks).st.mode = s.mode := by
  rw [readParameters]
  split
  · rfl
  · split <;> rfl

lemma setConfig_st_mode (s : LoRaState) (cfg : Config)
    (chunks : List (List Nat)) : (setConfig s cfg chunks).st.mode = s.mode := by
  rw [setConfig]
  split
  · rfl
  · split
    · rfl
    · split <;> rfl

lemma resetConfig_st_mode (s : LoRaState) (chunks : List (List Nat)) :
    (resetConfig s chunks).st.mode = s.mode := by
  by_cases hm : s.mode ≠ Mode.SLEEP
  · rw [resetConfig, if_pos hm]
  · rw [resetConfig, if_neg hm]
    cases h : (readParameters s chunks).out <;>
      simp [h, readParameters_st_mode]

lemma readVersion_st_mode (s : LoRaState) (chunks : List (List Nat)) :
    (readVersion s chunks).st.mode = s.mode := by
  rw [readVersion]
  split
  · rfl
  · split <;> rfl

lemma send_st_mode (s : LoRaState) (data : List Nat) :
    (send s data).st.mode = s.mode := by
  rw [send]
  split <;> rfl

/-- Claim C1 (code bug): the spec says `getConfig()`/`getVersion()` fail
with `NotReady` before `setup()` has completed.  The code cannot enforce
this: `private isSetup: false` is only a TypeScript type annotation, the
field is never initialized nor ever assigned (not even by `setup()`), so
`assertReady`'s loose comparison `this.isSetup == false` compares
`undefined == false`, which is false, and never throws.  On a freshly
constructed controller both accessors already succeed, and even a fully
successful `setup()` leaves `isSetup` unset. -/
theorem accessors_before_setup_do_not_fail :
    getConfig initState = .ok CONFIG_DEFAULT
    ∧ getVersion initState = .ok none
    ∧ (setup initState [[0xc0, 1, 2, 3, 4, 5]] [[9, 8, 7, 6]]).out = .ok ()
    ∧ (setup initState [[0xc0, 1, 2, 3, 4, 5]] [[9, 8, 7, 6]]).st.isSetup
        = none :=
  ⟨rfl, rfl, by decide, by decide⟩

/-- Claim C2: every sleep-gated register operation (`readParameters`,
`setConfig`, `resetConfig`, `readVersion`) called while the recorded mode
is not `SLEEP` fails with the `IllegalOperationError` raised by
`assertSleepMode`, leaves the state unchanged and writes nothing to the
byte transport (empty action trace). -/
theorem sleep_gate_blocks_register_ops (s : LoRaState)
    (h : s.mode ≠ Mode.SLEEP) :
    (∀ chunks, readParameters s chunks =
      { out := .err (.illegalOperation
          "Reading parameters while not in sleep mode"),
        st := s, trace := [] })
    ∧ (∀ cfg chunks, setConfig s cfg chunks =
      { out := .err (.illegalOperation
          "Reading parameters while not in sleep mode"),
        st := s, trace := [] })
    ∧ (∀ chunks, resetConfig s chunks =
      { out := .err (.illegalOperation
          "Reading parameters while not in sleep mode"),
        st := s, trace := [] })
    ∧ (∀ chunks, readVersion s chunks =
      { out := .err (.illegalOperation
          "Reading parameters while not in sleep mode"),
        st := s, trace := [] }) := by
  refine ⟨fun chunks => ?_, fun cfg chunks => ?_, fun chunks => ?_,
    fun chunks => ?_⟩
  · rw [readParameters, if_pos h]
  · rw [setConfig, if_pos h]
  · rw [resetConfig, if_pos h]
  · rw [readVersion, if_pos h]

/-- Witness for C2 at a concrete non-sleep state. -/
theorem sleep_gate_blocks_register_ops_witness :
    ({ initState with mode := Mode.NORMAL } : LoRaState).mode ≠ Mode.SLEEP
    ∧ readParameters { initState with mode := Mode.NORMAL } [[1]] =
      { out := .err (.illegalOperation
          "Reading parameters while not in sleep mode"),
        st := { initState with mode := Mode.NORMAL }, trace := [] } :=
  ⟨by decide,
   (sleep_gate_blocks_register_ops { initState with mode := Mode.NORMAL }
     (by decide)).1 [[1]]⟩

/-- Claim C3 counterexample: the claim says the receive primitive
"completes exactly when the cumulative byte count reaches n".  With
target 6 and two 4-byte chunks the cumulative byte count reaches 8 ≥ 6,
yet the receive never completes: the second chunk overflows the 6-byte
buffer, so `buf.set(data, cursor)` throws a `RangeError` inside the
`data` handler before the cursor is advanced and the promise is never
resolved. -/
theorem receive_overshoot_never_completes :
    6 ≤ totalLen [[0, 0, 0, 0], [0, 0, 0, 0]]
    ∧ (receiveRun 6 [[0, 0, 0, 0], [0, 0, 0, 0]]).done = false := by
  decide

/-- Claim C3 (amended): given a target length `n`, the receive primitive
accumulates the chunk bytes in order into its `n`-byte buffer and — for
chunk sequences in which no chunk overflows the buffer (every cumulative
count stays ≤ n, otherwise the handler raises a `RangeError` and the
receive does not complete) — completes exactly when the cumulative byte
count reaches `n`; on completion the transport listener is detached, so
further chunks change nothing; and it has no timeout of its own: for a
sequence of chunks never reaching `n` bytes it never completes. -/
theorem receive_completion_characterization (n : Nat)
    (chunks : List (List Nat)) (hn : 0 < n) :
    (prefixOk n 0 chunks = true →
      (receiveRun n chunks).done = decide (totalLen chunks = n)
      ∧ (receiveRun n chunks).buf =
          chunks.flatten ++ List.replicate (n - totalLen chunks) 0)
    ∧ (totalLen chunks < n → (receiveRun n chunks).done = false)
    ∧ ((receiveRun n chunks).done = true →
        ∀ extra, receiveRun n (chunks ++ extra) = receiveRun n chunks) := by
  refine ⟨fun hfit => ?_, fun hlt => ?_, fun hdone extra => ?_⟩
  · rw [receiveRun_eq hn hfit]
    exact ⟨rfl, rfl⟩
  · have hfit : prefixOk n 0 chunks = true := prefixOk_of_le (by omega)
    rw [receiveRun_eq hn hfit]
    exact decide_eq_false (by omega)
  · rw [receiveRun, List.foldl_append, ← receiveRun,
      foldl_receiveStep_done extra _ hdone]

/-- Witness for C3 at target 6 with chunks of 3+3 bytes. -/
theorem receive_completion_characterization_witness :
    0 < 6
    ∧ (receiveRun 6 [[1, 2, 3], [4, 5, 6]]).done =
        decide (totalLen [[1, 2, 3], [4, 5, 6]] = 6) :=
  ⟨by decide,
   ((receive_completion_characterization 6 [[1, 2, 3], [4, 5, 6]]
     (by decide)).1 (by decide)).1⟩

/-- Claim C4 counterexample: in SLEEP mode, with a well-formed 6-byte
reply, `readParameters` succeeds but does not adopt the parsed result as
the current configuration: the state is returned unchanged and
`this.config` stays `null`.  The assignment to `this.config` is done by
its callers (`setup`, `resetConfig`), not by `readParameters` itself. -/
theorem readParameters_does_not_adopt_config :
    (readParameters initState [[0xc0, 7, 7, 7, 7, 7]]).out.isOk = true
    ∧ (readParameters initState [[0xc0, 7, 7, 7, 7, 7]]).st = initState
    ∧ initState.config = none := by
  decide

/-- Claim C4 (amended): when the recorded mode is SLEEP and the transport
delivers exactly 6 reply bytes (no chunk overflowing the buffer),
`readParameters` writes exactly the fixed 3-byte command
`[0xC1,0xC1,0xC1]` to the transport, awaits the 6 reply bytes, parses
and validates them — failing with `BadHeader` when the first reply byte
is not the sentinel and returning the unpacked configuration when it is
— and leaves the state, in particular the stored configuration,
unchanged (its callers adopt the returned value). -/
theorem readParameters_reads_and_validates (s : LoRaState)
    (chunks : List (List Nat)) (hm : s.mode = Mode.SLEEP)
    (hfit : prefixOk 6 0 chunks = true) (htot : totalLen chunks = 6) :
    (readParameters s chunks).trace = [.uartWrite PACKET_GET_CONFIG]
    ∧ (readParameters s chunks).st = s
    ∧ (chunks.flatten.getD 0 0 = HEADER_SENTINEL →
        (readParameters s chunks).out = .ok (Config.unpack chunks.flatten))
    ∧ (chunks.flatten.getD 0 0 ≠ HEADER_SENTINEL →
        (readParameters s chunks).out = .err .badHeader) := by
  have hbuf := receiveBuf_eq_flatten (by omega) hfit htot
  have hflen : chunks.flatten.length = 6 := by
    rw [flatten_length_of_total, htot]
  have hmode : ¬s.mode ≠ Mode.SLEEP := by simp [hm]
  rw [readParameters, if_neg hmode, hbuf]
  refine ⟨rfl, rfl, fun hhead => ?_, fun hhead => ?_⟩
  · show Outcome.ofExcept
        ((Config.fromBytes chunks.flatten).bind Config.assert) = _
    rw [Config.fromBytes, if_pos hflen]
    show Outcome.ofExcept (Config.assert (Config.unpack chunks.flatten)) = _
    rw [Config.assert, if_pos
      (show (Config.unpack chunks.flatten).header = HEADER_SENTINEL
        from hhead)]
    rfl
  · show Outcome.ofExcept
        ((Config.fromBytes chunks.flatten).bind Config.assert) = _
    rw [Config.fromBytes, if_pos hflen]
    show Outcome.ofExcept (Config.assert (Config.unpack chunks.flatten)) = _
    rw [Config.assert, if_neg
      (show ¬(Config.unpack chunks.flatten).header = HEADER_SENTINEL
        from hhead)]
    rfl

/-- Witness for C4 with the reply split into two 3-byte chunks. -/
theorem readParameters_reads_and_validates_witness :
    (readParameters initState [[0xc0, 1, 2], [3, 4, 5]]).trace =
      [Action.uartWrite PACKET_GET_CONFIG]
    ∧ (readParameters initState [[0xc0, 1, 2], [3, 4, 5]]).out =
        .ok (Config.unpack [0xc0, 1, 2, 3, 4, 5]) := by
  have h := readParameters_reads_and_validates initState
    [[0xc0, 1, 2], [3, 4, 5]] rfl (by decide) (by decide)
  exact ⟨h.1, by simpa using h.2.2.1 (by decide)⟩

/-- Claim C5: in SLEEP mode, with the echo delivered as exactly 6 bytes,
`setConfig` serializes the given configuration into the 6-byte wire
layout, writes exactly those bytes to the transport, awaits the 6-byte
echo, succeeds, and the configuration held afterwards is the parse of
the echoed bytes — not the caller-supplied value. -/
theorem setConfig_adopts_echo (s : LoRaState) (cfg : Config)
    (chunks : List (List Nat)) (hm : s.mode = Mode.SLEEP)
    (hfit : prefixOk 6 0 chunks = true) (htot : totalLen chunks = 6) :
    (setConfig s cfg chunks).trace = [.uartWrite (serializeBytes cfg)]
    ∧ (serializeBytes cfg).length = 6
    ∧ (setConfig s cfg chunks).out = .ok ()
    ∧ (setConfig s cfg chunks).st =
        { s with config := some (Config.unpack chunks.flatten) } := by
  have hbuf := receiveBuf_eq_flatten (by omega) hfit htot
  have hflen : chunks.flatten.length = 6 := by
    rw [flatten_length_of_total, htot]
  have hmode : ¬s.mode ≠ Mode.SLEEP := by simp [hm]
  have hfb : Config.fromBytes chunks.flatten =
      .ok (Config.unpack chunks.flatten) := by
    rw [Config.fromBytes]
    exact if_pos hflen
  simp only [setConfig, if_neg hmode, hbuf, hfb]
  refine ⟨?_, ?_, ?_, ?_⟩ <;> trivial

/-- Witness for C5: the echoed bytes, not the written configuration,
become the stored configuration. -/
theorem setConfig_adopts_echo_witness :
    (setConfig initState CONFIG_DEFAULT [[0xaa, 1, 2, 3, 4, 5]]).st.config =
      some (Config.unpack [0xaa, 1, 2, 3, 4, 5])
    ∧ Config.unpack [0xaa, 1, 2, 3, 4, 5] ≠ CONFIG_DEFAULT := by
  have h := (setConfig_adopts_echo initState CONFIG_DEFAULT
    [[0xaa, 1, 2, 3, 4, 5]] rfl (by decide) (by decide)).2.2.2
  refine ⟨?_, by decide⟩
  rw [h]
  rfl

/-- Claim C6: `setMode` writes the fixed 2-bit pattern on the two GPIO
lines — NORMAL=(0,0), WAKE_UP=(1,0), POWER_SAVING=(0,1), SLEEP=(1,1) —
asserting both lines before the recorded mode is updated, then records
the new mode and emits the `mode` event; it has no failure path. -/
theorem setMode_gpio_then_record (s : LoRaState) (m : Mode) :
    setMode s m =
      { out := .ok (), st := { s with mode := m },
        trace := [.gpioWrite 0 (modeLevels m).1,
                  .gpioWrite 1 (modeLevels m).2,
                  .recordMode m, .emitMode m] }
    ∧ modeLevels Mode.NORMAL = (0, 0)
    ∧ modeLevels Mode.WAKE_UP = (1, 0)
    ∧ modeLevels Mode.POWER_SAVING = (0, 1)
    ∧ modeLevels Mode.SLEEP = (1, 1) :=
  ⟨rfl, rfl, rfl, rfl, rfl⟩

/-- Claim C7: in SLEEP mode, with the reply delivered as exactly 4
bytes, `readVersion` writes exactly the fixed command `[0xC3,0xC3,0xC3]`,
awaits the 4 reply bytes, and returns a `Version` whose `header`,
`model`, `version` and `features` fields are the four reply bytes in
order; its post-receive check fails with the wrong-length `TypeError`
on any buffer whose length is not 4. -/
theorem readVersion_reads_four_bytes (s : LoRaState)
    (chunks : List (List Nat)) (hm : s.mode = Mode.SLEEP)
    (hfit : prefixOk 4 0 chunks = true) (htot : totalLen chunks = 4) :
    (readVersion s chunks).trace = [.uartWrite [0xc3, 0xc3, 0xc3]]
    ∧ (readVersion s chunks).st = s
    ∧ (readVersion s chunks).out = .ok
        { header := chunks.flatten.getD 0 0
          model := chunks.flatten.getD 1 0
          version := chunks.flatten.getD 2 0
          features := chunks.flatten.getD 3 0 }
    ∧ (∀ b : List Nat, b.length ≠ 4 → versionOfBuf b = .error .typeError) := by
  have hbuf := receiveBuf_eq_flatten (by omega) hfit htot
  have hflen : chunks.flatten.length = 4 := by
    rw [flatten_length_of_total, htot]
  have hmode : ¬s.mode ≠ Mode.SLEEP := by simp [hm]
  have hv : versionOfBuf chunks.flatten = .ok
      { header := chunks.flatten.getD 0 0, model := chunks.flatten.getD 1 0
        version := chunks.flatten.getD 2 0
        features := chunks.flatten.getD 3 0 } := by
    rw [versionOfBuf]
    exact if_pos hflen
  simp only [readVersion, if_neg hmode, hbuf, hv, Outcome.ofExcept]
  refine ⟨?_, ?_, ?_, fun b hb => ?_⟩
  · trivial
  · trivial
  · trivial
  · rw [versionOfBuf]
    exact if_neg hb

/-- Witness for C7 with the reply split into two 2-byte chunks. -/
theorem readVersion_reads_four_bytes_witness :
    (readVersion initState [[9, 8], [7, 6]]).out =
      .ok { header := 9, model := 8, version := 7, features := 6 } := by
  have h := (readVersion_reads_four_bytes initState [[9, 8], [7, 6]] rfl
    (by decide) (by decide)).2.2.1
  simpa using h

lemma drainEvents_append {ε α : Type} (parse : List Nat → Except ε α)
    (l1 l2 : List (List Nat)) :
    drainEvents parse (l1 ++ l2) =
      drainEvents parse l1 ++ drainEvents parse l2 := by
  induction l1 with
  | nil => rfl
  | cons f fs ih => simp [drainEvents, ih]

lemma drainEvents_length {ε α : Type} (parse : List Nat → Except ε α)
    (frames : List (List Nat)) :
    (drainEvents parse frames).length = frames.length := by
  induction frames with
  | nil => rfl
  | cons f fs ih => simp [drainEvents, ih]

/-- Claim C8: the broadcast `Drain` passes each inbound frame to the
envelope parser; a frame the parser rejects yields exactly one `error`
event, the subscription stays attached (every frame of the sequence
still produces exactly one event), and a subsequent well-formed
envelope is still parsed and emitted as a `message` — one malformed
frame never terminates the subscription.  Stated for any parser, since
the envelope codec lives in the absent `packet.ts`. -/
theorem drain_parse_failure_is_isolated {ε α : Type}
    (parse : List Nat → Except ε α) (pre : List (List Nat))
    (bad good : List Nat) (err : ε) (env : α)
    (hbad : parse bad = .error err) (hgood : parse good = .ok env) :
    drainEvents parse (pre ++ [bad, good]) =
      drainEvents parse pre ++ [.error err, .message env]
    ∧ (drainEvents parse (pre ++ [bad, good])).length = pre.length + 2 := by
  have h : drainEvents parse [bad, good] =
      [.error err, .message env] := by
    simp [drainEvents, drainStep, hbad, hgood]
  constructor
  · rw [drainEvents_append, h]
  · rw [drainEvents_append, h, List.length_append, drainEvents_length]
    rfl

/-- Witness for C8 on the modelled envelope parser: a well-formed
frame, then a malformed one, then another well-formed one. -/
theorem drain_parse_failure_is_isolated_witness :
    drainEvents BroadcastPacket.fromBytes [[0, 1, 2], [5], [0, 2, 9, 9]] =
      [.message (1, [2]), .error .malformed, .message (2, [9, 9])] := by
  have h := (drain_parse_failure_is_isolated BroadcastPacket.fromBytes
    [[0, 1, 2]] [5] [0, 2, 9, 9] .malformed (2, [9, 9]) rfl rfl).1
  exact h.trans (by decide)

/-- Claim C9: the recorded mode is `SLEEP` at construction, and every
operation of the controller other than `setMode` (and `setup`, which
invokes `setMode`) leaves the recorded mode unchanged — `setMode` is
the only mutator of the mode field. -/
theorem mode_mutated_only_by_setMode :
    initState.mode = Mode.SLEEP
    ∧ (∀ s chunks, (readParameters s chunks).st.mode = s.mode)
    ∧ (∀ s cfg chunks, (setConfig s cfg chunks).st.mode = s.mode)
    ∧ (∀ s chunks, (resetConfig s chunks).st.mode = s.mode)
    ∧ (∀ s chunks, (readVersion s chunks).st.mode = s.mode)
    ∧ (∀ s data, (send s data).st.mode = s.mode)
    ∧ (∀ s data, (write s data).st.mode = s.mode) :=
  ⟨rfl, readParameters_st_mode, setConfig_st_mode, resetConfig_st_mode,
   readVersion_st_mode, send_st_mode, fun _ _ => rfl⟩

/-- Claim C10: `send` called while the recorded mode is `SLEEP` throws
an `IllegalOperationError` and forwards nothing to the data-link layer;
in every other mode it forwards the payload unchanged to the data-link
layer's framed `send`. -/
theorem send_gated_on_sleep (s : LoRaState) (data : List Nat) :
    (s.mode = Mode.SLEEP →
      send s data =
        { out := .err (.illegalOperation
            "Attempt to send data while in sleep mode"),
          st := s, trace := [] })
    ∧ (s.mode ≠ Mode.SLEEP →
      send s data =
        { out := .ok (), st := s, trace := [.linkSend data] }) := by
  constructor
  · intro h
    rw [send, if_pos h]
  · intro h
    rw [send, if_neg h]

/-- Witness for C10 in both a sleeping and a non-sleeping state. -/
theorem send_gated_on_sleep_witness :
    send initState [1, 2] =
      { out := .err (.illegalOperation
          "Attempt to send data while in sleep mode"),
        st := initState, trace := [] }
    ∧ send { initState with mode := Mode.NORMAL } [1, 2] =
      { out := .ok (), st := { initState with mode := Mode.NORMAL },
        trace := [.linkSend [1, 2]] } :=
  ⟨(send_gated_on_sleep initState [1, 2]).1 rfl,
   (send_gated_on_sleep { initState with mode := Mode.NORMAL } [1, 2]).2
     (by decide)⟩

end LoRa
